import Mathlib

/-!
Verification development for the smart-ad-selector repository.

The embedding below translates the detection pipeline of the repository into
Lean: the geometric/score filter and demographic post-processing of
`processDetections` (src/hooks/useAdQueue.ts, second document: the
CCTV-optimized face-detection hook), the two-pass orchestrator and
timeout/in-flight control flow of `detectFaces` in the same hook, the
three-pass orchestrator of the superseded `detectFaces` variant
(src/unnamed/part_007), the transformers-based `detectFaces` hook
(src/hooks/useFaceDetection.ts), the demographic aggregation of the
SmartAdsSystem pages, and — for the parts of the repository that are not
present under src (the temporal tracker and the gender-bias correction
utility, whose types, configuration and UI consumers are present but whose
implementation files are not) — definitions modelled from the specification.

Numbers are rationals (JS floating point modelled as exact arithmetic);
`Math.round` is modelled by `jsRound` below; timestamps are naturals passed
explicitly.
-/

namespace SmartAds

/-- Gender, from `'male' | 'female'` in src/types/ad.ts. -/
inductive Gender where
  | male
  | female
deriving DecidableEq, Repr

/-- Three-bucket age group, from `'kid' | 'young' | 'adult'` in the
CCTV detection types (src/types/ad.ts, second document, `TrackedFace`). -/
inductive AgeGroup where
  | kid
  | young
  | adult
deriving DecidableEq, Repr

/-- Two-bucket age group, from `ageGroup: 'young' | 'adult'` of
`DetectionResult` in src/types/ad.ts (first document, line 24). -/
inductive AgeGroupYA where
  | young
  | adult
deriving DecidableEq, Repr

/-- `detector: 'tiny' | 'ssd' | 'dual'` of `CCTVDetectionConfig`. -/
inductive DetectorMode where
  | tiny
  | ssd
  | dual
deriving DecidableEq, Repr

/-- `detectorUsed: 'tiny' | 'ssd'` of `TrackedFace` / `processDetections`. -/
inductive DetectorUsed where
  | tiny
  | ssd
deriving DecidableEq, Repr

/-- Axis-aligned bounding box (`FaceBoundingBox` in src/types/ad.ts). -/
structure FaceBox where
  x : ℚ
  y : ℚ
  width : ℚ
  height : ℚ
deriving DecidableEq, Repr

/-- Raw output of one detector invocation with age/gender attributes
(face-api.js `WithAge<WithGender<WithFaceDetection>>` as consumed by
`processDetections`): bounding box, detector score, raw age estimate and
gender with its probability. -/
structure RawDetection where
  box : FaceBox
  score : ℚ
  age : ℚ
  gender : Gender
  genderProbability : ℚ
deriving DecidableEq, Repr

/-- `ROIConfig` of src/utils/imagePreprocessing as used by the config. -/
structure ROIConfig where
  enabled : Bool
  x : ℚ
  y : ℚ
  width : ℚ
  height : ℚ
deriving DecidableEq, Repr

/-- `PreprocessingOptions {gamma, contrast, sharpen, denoise}`. -/
structure PreprocessingOptions where
  gamma : ℚ
  contrast : ℚ
  sharpen : ℚ
  denoise : Bool
deriving DecidableEq, Repr

/-- `CCTVDetectionConfig` from src/types/ad.ts lines 88-112 (second
document).  Note the filtering section has `minFaceScore`, `minFaceSizePx`,
`minFaceSizePercent`, `aspectRatioMin`, `aspectRatioMax` and `roi` only:
the type declares no maximum face-size field. -/
structure CCTVDetectionConfig where
  detector : DetectorMode
  sensitivity : ℚ
  preprocessing : PreprocessingOptions
  upscale : ℚ
  roi : ROIConfig
  minFaceScore : ℚ
  minFaceSizePx : ℚ
  minFaceSizePercent : ℚ
  aspectRatioMin : ℚ
  aspectRatioMax : ℚ
  minConsecutiveFrames : ℕ
  holdFrames : ℕ
  maxVelocityPx : ℚ
  debugMode : Bool
deriving DecidableEq, Repr

/-- `DEFAULT_CCTV_CONFIG` from src/types/ad.ts lines 114-129. -/
def DEFAULT_CCTV_CONFIG : CCTVDetectionConfig where
  detector := .dual
  sensitivity := 35/100
  preprocessing := { gamma := 12/10, contrast := 13/10, sharpen := 3/10, denoise := false }
  upscale := 15/10
  roi := { enabled := false, x := 0, y := 0, width := 1, height := 1 }
  minFaceScore := 3/10
  minFaceSizePx := 24
  minFaceSizePercent := 1
  aspectRatioMin := 5/10
  aspectRatioMax := 2
  minConsecutiveFrames := 2
  holdFrames := 4
  maxVelocityPx := 150
  debugMode := false

/-- `DEFAULT_WEBCAM_CONFIG` from src/types/ad.ts lines 131-146. -/
def DEFAULT_WEBCAM_CONFIG : CCTVDetectionConfig where
  detector := .tiny
  sensitivity := 4/10
  preprocessing := { gamma := 1, contrast := 1, sharpen := 0, denoise := false }
  upscale := 1
  roi := { enabled := false, x := 0, y := 0, width := 1, height := 1 }
  minFaceScore := 45/100
  minFaceSizePx := 40
  minFaceSizePercent := 2
  aspectRatioMin := 6/10
  aspectRatioMax := 18/10
  minConsecutiveFrames := 1
  holdFrames := 2
  maxVelocityPx := 200
  debugMode := false

/-- JavaScript `Math.round` for the nonnegative quantities handled by the
pipeline: round half up. -/
def jsRound (q : ℚ) : ℤ := ⌊q + 1/2⌋

/-- `const effectiveMinScore = Math.min(config.minFaceScore, config.sensitivity)`
(src/hooks/useAdQueue.ts line 303, second document). -/
def effectiveMinScore (c : CCTVDetectionConfig) : ℚ :=
  min c.minFaceScore c.sensitivity

/-- The geometric/score filter predicate of `processDetections`
(src/hooks/useAdQueue.ts lines 309-355, second document), evaluated on one
raw detection after rescaling the box by `scaleBack` and offsetting by the
ROI offset `(ox, oy)`.  Conditions appear in code order: score, minimum
pixel size, minimum frame percentage, aspect ratio, frame containment.
The code applies no maximum-size condition. -/
def passesFilter (c : CCTVDetectionConfig) (videoWidth videoHeight scaleBack ox oy : ℚ)
    (d : RawDetection) : Bool :=
  let faceWidth := d.box.width / scaleBack
  let faceHeight := d.box.height / scaleBack
  let faceX := d.box.x / scaleBack + ox
  let faceY := d.box.y / scaleBack + oy
  if d.score < effectiveMinScore c then false
  else if faceWidth < c.minFaceSizePx || faceHeight < c.minFaceSizePx then false
  else if (faceWidth * faceHeight) / (videoWidth * videoHeight) * 100 < c.minFaceSizePercent then
    false
  else if faceWidth / faceHeight < c.aspectRatioMin
      || faceWidth / faceHeight > c.aspectRatioMax then false
  else if faceX < 0 || faceY < 0 || faceX + faceWidth > videoWidth
      || faceY + faceHeight > videoHeight then false
  else true

/-- Age bucketing of `processDetections` (src/hooks/useAdQueue.ts lines
368-377, second document): kid (<13), young (13-34), adult (35+),
applied to the rounded age. -/
def classifyAgeGroup (age : ℤ) : AgeGroup :=
  if age < 13 then .kid
  else if age < 35 then .young
  else .adult

/-- Detection result produced by `processDetections` (`DetectionResult` of
the CCTV pipeline: gender, age group, confidence, face score, bounding box,
tracking id, last-seen timestamp).  The string tracking id
`det_x_y` is modelled by the triple of its components. -/
structure PipelineResult where
  gender : Gender
  ageGroup : AgeGroup
  confidence : ℚ
  faceScore : ℚ
  boundingBox : FaceBox
  trackingId : DetectorUsed × ℤ × ℤ
  lastSeen : ℕ
deriving DecidableEq, Repr

/-- The `.map` stage of `processDetections` (src/hooks/useAdQueue.ts lines
356-388, second document) on one surviving detection: clamp the rescaled
box into the frame, bucket the rounded age, and carry gender probability
as confidence.  `now` stands for `Date.now()`. -/
def mapDetection (videoWidth videoHeight scaleBack ox oy : ℚ)
    (detectorUsed : DetectorUsed) (now : ℕ) (d : RawDetection) : PipelineResult :=
  let boundingBox : FaceBox :=
    { x := max 0 (d.box.x / scaleBack + ox)
      y := max 0 (d.box.y / scaleBack + oy)
      width := min (d.box.width / scaleBack) (videoWidth - d.box.x / scaleBack)
      height := min (d.box.height / scaleBack) (videoHeight - d.box.y / scaleBack) }
  { gender := d.gender
    ageGroup := classifyAgeGroup (jsRound d.age)
    confidence := d.genderProbability
    faceScore := d.score
    boundingBox := boundingBox
    trackingId := (detectorUsed, jsRound boundingBox.x, jsRound boundingBox.y)
    lastSeen := now }

/-- Outcome record of `processDetections`: the filtered-and-mapped results
together with the raw and filtered counts. -/
structure ProcessOutcome where
  results : List PipelineResult
  rawCount : ℕ
  filteredCount : ℕ
deriving DecidableEq, Repr

/-- `processDetections` (src/hooks/useAdQueue.ts lines 289-395, second
document): filter raw detections by `passesFilter`, map survivors by
`mapDetection`, and report raw/filtered counts.  The ROI offset is the
optional `roiOffset` argument, absent meaning offset `(0, 0)` (the code's
`roiOffset?.x ?? 0`). -/
def processDetections (c : CCTVDetectionConfig) (videoWidth videoHeight scaleBack : ℚ)
    (roiOffset : Option (ℚ × ℚ)) (detectorUsed : DetectorUsed) (now : ℕ)
    (detections : List RawDetection) : ProcessOutcome :=
  let ox := (roiOffset.map Prod.fst).getD 0
  let oy := (roiOffset.map Prod.snd).getD 0
  let results :=
    (detections.filter (passesFilter c videoWidth videoHeight scaleBack ox oy)).map
      (mapDetection videoWidth videoHeight scaleBack ox oy detectorUsed now)
  { results := results
    rawCount := detections.length
    filteredCount := results.length }

/-! ### The transformers-based hook (src/hooks/useFaceDetection.ts) -/

/-- `DetectionResult` as produced by the transformers-based hook
(src/hooks/useFaceDetection.ts): gender, numeric age, two-bucket age
group, confidence, bounding box. -/
structure HFDetectionResult where
  gender : Gender
  age : ℤ
  ageGroup : AgeGroupYA
  confidence : ℚ
  boundingBox : FaceBox
deriving DecidableEq, Repr

/-- Two-bucket age assignment of src/hooks/useFaceDetection.ts line 239:
`ageGroup: age < 35 ? 'young' : 'adult'`.  There is no kid bucket in this
code path. -/
def hfAgeGroup (age : ℤ) : AgeGroupYA :=
  if age < 35 then .young else .adult

/-- Per-face post-processing of the transformers model output
(src/hooks/useFaceDetection.ts lines 229-242):
`age = Math.min(Math.max(Math.round(ageLogits), 1), 100)`,
`isFemale = genderLogits >= 0.5`,
`confidence = Math.max(genderLogits, 1 - genderLogits)`,
`ageGroup: age < 35 ? 'young' : 'adult'`. -/
def hfClassify (box : FaceBox) (ageLogits genderLogits : ℚ) : HFDetectionResult :=
  let age := min (max (jsRound ageLogits) 1) 100
  let isFemale := genderLogits ≥ 1/2
  { gender := if isFemale then .female else .male
    age := age
    ageGroup := hfAgeGroup age
    confidence := max genderLogits (1 - genderLogits)
    boundingBox := box }

/-- The fabricated per-region result that src/hooks/useFaceDetection.ts
lines 189-195 returns when the model is not loaded:
`{ gender: 'male', age: 25, ageGroup: 'young', confidence: 0.5, boundingBox: box }`. -/
def hfFallbackResult (box : FaceBox) : HFDetectionResult :=
  { gender := .male, age := 25, ageGroup := .young, confidence := 1/2, boundingBox := box }

/-- Core branching of `detectFaces` in src/hooks/useFaceDetection.ts
(lines 164-255) for a ready video element: run the skin-tone region
finder (its output `faceRegions` is a parameter here), return `[]` when it
finds nothing; when the age/gender model is NOT loaded, return one
fabricated result per region (lines 186-196); otherwise classify each
region with the model (`classify` abstracts the per-region crop,
preprocessing and inference of lines 208-247). -/
def detectFacesHF (modelLoaded : Bool) (faceRegions : List FaceBox)
    (classify : FaceBox → HFDetectionResult) : List HFDetectionResult :=
  if faceRegions.length = 0 then []
  else if !modelLoaded then faceRegions.map hfFallbackResult
  else faceRegions.map classify

/-! ### Demographic aggregation in the SmartAdsSystem pages -/

/-- `DemographicCounts` from src/types/ad.ts lines 14-19 (first document):
male, female, young, adult. -/
structure DemographicCounts where
  male : ℕ
  female : ℕ
  young : ℕ
  adult : ℕ
deriving DecidableEq, Repr

/-- `DemographicCounts` as used by the src/unnamed/part_008 page variant:
male, female, kid, young, adult. -/
structure DemographicCounts5 where
  male : ℕ
  female : ℕ
  kid : ℕ
  young : ℕ
  adult : ℕ
deriving DecidableEq, Repr

/-- Detection result shape consumed by the aggregation in
src/pages/SmartAdsSystem.tsx (`DetectionResult` of src/types/ad.ts, first
document): gender and a two-bucket age group. -/
structure AdDetectionResult where
  gender : Gender
  age : ℤ
  ageGroup : AgeGroupYA
  confidence : ℚ
deriving DecidableEq, Repr

/-- Body of the `detections.forEach` of `handleAdEnded`
(src/pages/SmartAdsSystem.tsx lines 141-147): increment the detection's
gender count and its age-group count. -/
def countDetection (acc : DemographicCounts) (det : AdDetectionResult) : DemographicCounts :=
  let acc1 :=
    if det.gender = .male then { acc with male := acc.male + 1 }
    else { acc with female := acc.female + 1 }
  if det.ageGroup = .young then { acc1 with young := acc1.young + 1 }
  else { acc1 with adult := acc1.adult + 1 }

/-- The demographic update of `handleAdEnded`
(src/pages/SmartAdsSystem.tsx lines 138-149): for EVERY accumulated
detection, increment its gender count and its age-group count. -/
def updateDemographics (demo : DemographicCounts) (detections : List AdDetectionResult) :
    DemographicCounts :=
  detections.foldl countDetection demo

/-- The per-ad accumulation of the detection loop
(src/pages/SmartAdsSystem.tsx line 59, `adDetectionsRef.current.push(...results)`):
the detections handed to `handleAdEnded` are the concatenation of every
cycle's results over the capture window. -/
def adDetections (cycles : List (List AdDetectionResult)) : List AdDetectionResult :=
  cycles.flatten

/-- The per-cycle snapshot of `startDetectionLoop` in src/unnamed/part_008
lines 163-169: recomputed from the LATEST cycle's raw results by filtering
on each attribute. -/
def snapshotOfResults (results : List PipelineResult) : DemographicCounts5 where
  male := (results.filter (fun d => d.gender = .male)).length
  female := (results.filter (fun d => d.gender = .female)).length
  kid := (results.filter (fun d => d.ageGroup = .kid)).length
  young := (results.filter (fun d => d.ageGroup = .young)).length
  adult := (results.filter (fun d => d.ageGroup = .adult)).length

/-! ### The three-pass orchestrator of src/unnamed/part_007 -/

/-- Parameters of one TinyFaceDetector invocation
(`TinyFaceDetectorOptions { inputSize, scoreThreshold }`). -/
structure TinyParams where
  inputSize : ℕ
  scoreThreshold : ℚ
deriving DecidableEq, Repr

/-- Pass 1 of src/unnamed/part_007 `detectFaces` (lines 74-79):
inputSize 608, scoreThreshold 0.1. -/
def pass1Params : TinyParams := ⟨608, 1/10⟩

/-- Pass 2 of src/unnamed/part_007 `detectFaces` (lines 84-89):
inputSize 800, scoreThreshold 0.05. -/
def pass2Params : TinyParams := ⟨800, 1/20⟩

/-- Pass 3 of src/unnamed/part_007 `detectFaces` (lines 100-105):
inputSize 416, scoreThreshold 0.05. -/
def pass3Params : TinyParams := ⟨416, 1/20⟩

/-- Detections held after passes 1 and 2 of src/unnamed/part_007
`detectFaces` (lines 74-95): pass 1 runs first; if it found fewer than 2
faces, pass 2 runs and REPLACES the detections only when it found strictly
more.  `detect` abstracts one TinyFaceDetector invocation on the frame. -/
def afterPass2 (detect : TinyParams → List RawDetection) : List RawDetection :=
  let detections := detect pass1Params
  if detections.length < 2 then
    let moreDetections := detect pass2Params
    if moreDetections.length > detections.length then moreDetections else detections
  else detections

/-- Pass-3 trigger of src/unnamed/part_007 `detectFaces` (line 98):
`if (detections.length === 0)` after passes 1 and 2. -/
def pass3Reached (detect : TinyParams → List RawDetection) : Bool :=
  (afterPass2 detect).length = 0

/-- Final detections of the three-pass `detectFaces` of
src/unnamed/part_007 (lines 74-106): the pass-1/2 result, except that the
pass-3 fallback invocation replaces it when that result is empty. -/
def multiPassDetect (detect : TinyParams → List RawDetection) : List RawDetection :=
  let detections := afterPass2 detect
  if detections.length = 0 then detect pass3Params else detections

/-! ### The two-pass CCTV orchestrator and cycle control flow
(src/hooks/useAdQueue.ts, second document, `detectFaces` lines 398-580) -/

/-- `const DETECTION_TIMEOUT = 10000` (src/hooks/useAdQueue.ts line 117,
second document): hard per-cycle timeout in milliseconds. -/
def DETECTION_TIMEOUT : ℕ := 10000

/-- Abstraction of the underlying face-api.js detectors for one frame:
what TinyFaceDetector and SSD Mobilenet would return on the raw video and
on the preprocessed/upscaled canvas, plus whether
`createProcessedCanvas` succeeds (it returns null when no 2d context is
available). -/
structure DetectorEnv where
  tinyVideo : ℕ → ℚ → List RawDetection
  ssdVideo : ℚ → List RawDetection
  tinyCanvas : ℕ → ℚ → List RawDetection
  ssdCanvas : ℚ → List RawDetection
  canvasOk : Bool

/-- `runSsdDetection` (src/hooks/useAdQueue.ts lines 262-276, second
document): returns `[]` without invoking the detector when the SSD
weights are not loaded. -/
def runSsdDetection (ssdLoaded : Bool) (ssd : ℚ → List RawDetection)
    (minConfidence : ℚ) : List RawDetection :=
  if ssdLoaded then ssd minConfidence else []

/-- Everything the detection promise of `detectFaces` computes when it
runs to completion: the processed outcome plus the diagnostics recorded in
`debugInfoRef`, and the number of detector invocations performed. -/
structure OrchestratorOutcome where
  outcome : ProcessOutcome
  detectorUsed : DetectorUsed
  passUsed : ℕ
  preprocessingApplied : Bool
  upscaled : Bool
  scaleBack : ℚ
  roiActive : Bool
  detectorInvocations : ℕ

/-- The pass-1/pass-2 orchestration of `detectFaces`
(src/hooks/useAdQueue.ts lines 418-527, second document).

Pass 1: SSD when `config.detector = ssd` and the SSD weights loaded,
otherwise TinyFaceDetector at input size 416 (CCTV) / 512 (webcam), at
threshold `max(sensitivity - 0.05, 0.15)`.

Pass 2 (only when pass 1 found nothing, the session is CCTV, and the
detector mode is not tiny-only): on the preprocessed upscaled canvas, SSD
at `max(sensitivity - 0.1, 0.2)` when loaded, then TinyFaceDetector at
input size 608 and the same threshold when SSD found nothing; `scaleBack`
becomes the upscale factor.  The surviving detections go through
`processDetections`. -/
def orchestrate (env : DetectorEnv) (ssdLoaded : Bool) (c : CCTVDetectionConfig)
    (isCCTV : Bool) (videoWidth videoHeight : ℚ) (now : ℕ) : OrchestratorOutcome :=
  let roiOffset : Option (ℚ × ℚ) :=
    if c.roi.enabled then some (c.roi.x * videoWidth, c.roi.y * videoHeight) else none
  let detectionThreshold := max (c.sensitivity - 1/20) (3/20)
  let inputSize : ℕ := if isCCTV then 416 else 512
  let pass1 : List RawDetection × DetectorUsed :=
    if c.detector = .ssd ∧ ssdLoaded then
      (runSsdDetection ssdLoaded env.ssdVideo detectionThreshold, .ssd)
    else if c.detector = .tiny then
      (env.tinyVideo inputSize detectionThreshold, .tiny)
    else
      (env.tinyVideo inputSize detectionThreshold, .tiny)
  let pass2Triggered := pass1.1.length = 0 ∧ isCCTV ∧ c.detector ≠ .tiny
  if pass2Triggered ∧ env.canvasOk then
    let rescueThreshold := max (c.sensitivity - 1/10) (1/5)
    let afterSsd : List RawDetection × DetectorUsed × ℕ :=
      if ssdLoaded then (runSsdDetection ssdLoaded env.ssdCanvas rescueThreshold, .ssd, 1)
      else (pass1.1, pass1.2, 0)
    let final : List RawDetection × DetectorUsed × ℕ :=
      if afterSsd.1.length = 0 then (env.tinyCanvas 608 rescueThreshold, .tiny, afterSsd.2.2 + 1)
      else afterSsd
    { outcome := processDetections c videoWidth videoHeight c.upscale roiOffset final.2.1 now final.1
      detectorUsed := final.2.1
      passUsed := 2
      preprocessingApplied :=
        c.preprocessing.gamma ≠ 1 ∨ c.preprocessing.contrast ≠ 1 ∨ c.preprocessing.sharpen > 0
      upscaled := c.upscale > 1
      scaleBack := c.upscale
      roiActive := c.roi.enabled
      detectorInvocations := 1 + final.2.2 }
  else
    { outcome := processDetections c videoWidth videoHeight 1 roiOffset pass1.2 now pass1.1
      detectorUsed := pass1.2
      passUsed := if pass2Triggered then 2 else 1
      preprocessingApplied := false
      upscaled := false
      scaleBack := 1
      roiActive := c.roi.enabled
      detectorInvocations := 1 }

/-- Observable outcome of one `detectFaces` call: the returned results,
how many detector invocations this call performed, and the value of
`inFlightRef.current` once the call has returned. -/
structure CycleOutcome where
  results : List PipelineResult
  detectorInvocations : ℕ
  inFlightAfter : Bool

/-- One `detectFaces` call (src/hooks/useAdQueue.ts lines 398-569, second
document).  In order: the in-flight guard returns `[]` untouched when a
cycle is already running (lines 402-404, no detector invocation); an
unready video element or unloaded models return `[]` before the guard is
set (lines 406-408); otherwise the guard is set, the detection promise is
raced against the `DETECTION_TIMEOUT` timer — `timedOut` models the race
being lost, in which case the `catch` returns `[]` — and the `finally`
clears the guard either way. -/
def detectFacesCycle (inFlight ready modelLoaded timedOut : Bool)
    (env : DetectorEnv) (ssdLoaded : Bool) (c : CCTVDetectionConfig) (isCCTV : Bool)
    (videoWidth videoHeight : ℚ) (now : ℕ) : CycleOutcome :=
  if inFlight then { results := [], detectorInvocations := 0, inFlightAfter := inFlight }
  else if !ready || !modelLoaded then
    { results := [], detectorInvocations := 0, inFlightAfter := false }
  else
    let run := orchestrate env ssdLoaded c isCCTV videoWidth videoHeight now
    if timedOut then
      { results := [], detectorInvocations := run.detectorInvocations, inFlightAfter := false }
    else
      { results := run.outcome.results
        detectorInvocations := run.detectorInvocations
        inFlightAfter := false }

/-! ### The temporal tracker (modelled from the spec)

The repository declares the tracker's data model — `TrackedFace` and the
tracking section of `CCTVDetectionConfig` (src/types/ad.ts, second
document) — and its UI consumers (DebugOverlay, SettingsPanel), but the
tracker implementation itself is not among the source files.  The
per-cycle update below is therefore modelled from the specification. -/

/-- Track velocity `{vx, vy}` in pixels per frame (src/types/ad.ts line 61). -/
structure Velocity where
  vx : ℚ
  vy : ℚ
deriving DecidableEq, Repr

/-- `TrackedFace` from src/types/ad.ts lines 58-71 (second document). -/
structure TrackedFace where
  id : String
  boundingBox : FaceBox
  velocity : Velocity
  confidence : ℚ
  faceScore : ℚ
  gender : Gender
  ageGroup : AgeGroup
  consecutiveHits : ℕ
  missedFrames : ℕ
  firstSeenAt : ℕ
  lastSeenAt : ℕ
  detectorUsed : DetectorUsed
deriving DecidableEq, Repr

/-- Modelled from the spec: position prediction (§4.6 step 1),
`predictedBox = lastBox + velocity × elapsedFrames` with one elapsed frame
per cycle. -/
def predictBox (t : TrackedFace) : FaceBox :=
  { t.boundingBox with
    x := t.boundingBox.x + t.velocity.vx
    y := t.boundingBox.y + t.velocity.vy }

/-- Modelled from the spec: handling of an unmatched track in one cycle
(§4.6 step 5) — increment `missedFrames`; when it exceeds `holdFrames` the
track expires and is removed (`none`); otherwise it is held with its box
advanced by the predicted position only. -/
def stepUnmatchedTrack (holdFrames : ℕ) (t : TrackedFace) : Option TrackedFace :=
  if t.missedFrames + 1 > holdFrames then none
  else some { t with missedFrames := t.missedFrames + 1, boundingBox := predictBox t }

/-- Modelled from the spec: update of a matched track (§4.6 step 4) — take
the detection's box, recompute velocity as the delta of box centers,
increment `consecutiveHits`, reset `missedFrames` to 0, and adopt the new
observation's demographics (the spec leaves the vote window and tie-break
open, recommending latest-wins, which this models). -/
def matchedUpdate (now : ℕ) (t : TrackedFace) (d : PipelineResult) : TrackedFace :=
  { t with
    boundingBox := d.boundingBox
    velocity :=
      { vx := (d.boundingBox.x + d.boundingBox.width / 2)
          - (t.boundingBox.x + t.boundingBox.width / 2)
        vy := (d.boundingBox.y + d.boundingBox.height / 2)
          - (t.boundingBox.y + t.boundingBox.height / 2) }
    confidence := d.confidence
    faceScore := d.faceScore
    gender := d.gender
    ageGroup := d.ageGroup
    consecutiveHits := t.consecutiveHits + 1
    missedFrames := 0
    lastSeenAt := now
    detectorUsed := d.trackingId.1 }

/-- Modelled from the spec: creation of a track from an unmatched
detection (§4.6 step 6) — a provisional track with `consecutiveHits = 1`,
`missedFrames = 0`, zero initial velocity. -/
def newTrack (now : ℕ) (id : String) (d : PipelineResult) : TrackedFace :=
  { id := id
    boundingBox := d.boundingBox
    velocity := { vx := 0, vy := 0 }
    confidence := d.confidence
    faceScore := d.faceScore
    gender := d.gender
    ageGroup := d.ageGroup
    consecutiveHits := 1
    missedFrames := 0
    firstSeenAt := now
    lastSeenAt := now
    detectorUsed := d.trackingId.1 }

/-- Modelled from the spec: one tracker cycle (§4.6 steps 4-6).  The greedy
IoU/velocity matching of steps 2-3 is abstracted by `assign`, which gives
each existing track its matched detection if any (the theorems below hold
for every possible matching outcome); `unmatchedDets` are the detections
left unmatched, each paired with a fresh id. -/
def trackerCycle (holdFrames : ℕ) (now : ℕ) (assign : TrackedFace → Option PipelineResult)
    (unmatchedDets : List (String × PipelineResult)) (tracks : List TrackedFace) :
    List TrackedFace :=
  tracks.filterMap
    (fun t =>
      match assign t with
      | some d => some (matchedUpdate now t d)
      | none => stepUnmatchedTrack holdFrames t)
  ++ unmatchedDets.map fun p => newTrack now p.1 p.2

/-- Modelled from the spec: the fate of one track that goes unmatched for
`k` consecutive detection cycles — each cycle applies the unmatched-track
step (§4.6 step 5); `none` means the track has been removed. -/
def survivesUnmatched (holdFrames : ℕ) (k : ℕ) (t : TrackedFace) : Option TrackedFace :=
  match k with
  | 0 => some t
  | k + 1 => (survivesUnmatched holdFrames k t).bind (stepUnmatchedTrack holdFrames)

/-- Modelled from the spec: the session aggregator's snapshot (§4.7) —
count gender and age group over the confirmed tracks only (those whose
`consecutiveHits` reached `minConsecutiveFrames`). -/
def confirmedSnapshot (minConsecutiveFrames : ℕ) (tracks : List TrackedFace) :
    DemographicCounts5 :=
  let confirmed := tracks.filter fun t => minConsecutiveFrames ≤ t.consecutiveHits
  { male := (confirmed.filter (fun t => t.gender = .male)).length
    female := (confirmed.filter (fun t => t.gender = .female)).length
    kid := (confirmed.filter (fun t => t.ageGroup = .kid)).length
    young := (confirmed.filter (fun t => t.ageGroup = .young)).length
    adult := (confirmed.filter (fun t => t.ageGroup = .adult)).length }

/-! ### Gender-bias correction (modelled from the spec)

The repository's documentation names `utils/genderHeuristics.ts` as the
bias-correction module and the settings UI exposes a female boost factor,
but the implementation file is not among the source files.  The correction
is therefore modelled from the specification (§4.5). -/

/-- Modelled from the spec: the female-boost correction of §4.5,
`correctedFemaleProb = min(1, rawFemaleProb + b × (1 − rawFemaleProb))`. -/
def correctedFemaleProb (b rawFemaleProb : ℚ) : ℚ :=
  min 1 (rawFemaleProb + b * (1 - rawFemaleProb))

/-- Modelled from the spec: final gender after bias correction (§4.5),
`female` iff the corrected female probability is at least 0.5. -/
def boostedGender (b rawFemaleProb : ℚ) : Gender :=
  if 1/2 ≤ correctedFemaleProb b rawFemaleProb then .female else .male

/-- Modelled from the spec: reported confidence after bias correction
(§4.5), `max(correctedFemaleProb, 1 − correctedFemaleProb)`. -/
def boostedConfidence (b rawFemaleProb : ℚ) : ℚ :=
  max (correctedFemaleProb b rawFemaleProb) (1 - correctedFemaleProb b rawFemaleProb)

/-! ## Theorems -/

/-- Characterization of the geometric/score filter: a raw detection passes
iff the five coded conditions hold — score at least the effective minimum,
both rescaled dimensions at least `minFaceSizePx`, frame-area percentage
at least `minFaceSizePercent`, aspect ratio within bounds, and the box
contained in the frame.  No condition bounds the face size from above. -/
theorem passesFilter_eq_true_iff (c : CCTVDetectionConfig) (W H s ox oy : ℚ)
    (d : RawDetection) :
    passesFilter c W H s ox oy d = true ↔
      (effectiveMinScore c ≤ d.score
      ∧ c.minFaceSizePx ≤ d.box.width / s
      ∧ c.minFaceSizePx ≤ d.box.height / s
      ∧ c.minFaceSizePercent ≤ d.box.width / s * (d.box.height / s) / (W * H) * 100
      ∧ c.aspectRatioMin ≤ d.box.width / s / (d.box.height / s)
      ∧ d.box.width / s / (d.box.height / s) ≤ c.aspectRatioMax
      ∧ 0 ≤ d.box.x / s + ox
      ∧ 0 ≤ d.box.y / s + oy
      ∧ d.box.x / s + ox + d.box.width / s ≤ W
      ∧ d.box.y / s + oy + d.box.height / s ≤ H) := by
  simp only [passesFilter, Bool.or_eq_true, decide_eq_true_eq]
  split_ifs with h1 h2 h3 h4 h5
  · simp only [false_iff]
    rintro ⟨p1, -, -, -, -, -, -, -, -, -⟩
    linarith
  · simp only [false_iff]
    rintro ⟨-, p2, p3, -, -, -, -, -, -, -⟩
    rcases h2 with h | h <;> linarith
  · simp only [false_iff]
    rintro ⟨-, -, -, p4, -, -, -, -, -, -⟩
    linarith
  · simp only [false_iff]
    rintro ⟨-, -, -, -, p5, p6, -, -, -, -⟩
    rcases h4 with h | h <;> linarith
  · simp only [false_iff]
    rintro ⟨-, -, -, -, -, -, p7, p8, p9, p10⟩
    rcases h5 with ((h | h) | h) | h <;> linarith
  · simp only [true_iff]
    push_neg at h1 h2 h3 h4 h5
    exact ⟨h1, h2.1, h2.2, h3, h4.1, h4.2, h5.1.1.1, h5.1.1.2, h5.1.2, h5.2⟩

/-- A concrete raw detection whose box covers 40% of a 640×480 frame:
box (0, 0, 384, 320), score 0.9, age 25, male with probability 0.8. -/
def oversizedDetection : RawDetection :=
  { box := { x := 0, y := 0, width := 384, height := 320 }
    score := 9/10
    age := 25
    gender := .male
    genderProbability := 4/5 }

/-- C1: counterexample.  A detection box covering 40% of the frame area —
above the claimed default `maxFaceSizePercent` of 35 — is NOT filtered
out by `processDetections` under `DEFAULT_CCTV_CONFIG`: it yields one
result, not zero. -/
theorem oversized_box_passes_filter :
    (384 * 320 : ℚ) / (640 * 480) * 100 = 40 ∧ (35 : ℚ) < 40
    ∧ (processDetections DEFAULT_CCTV_CONFIG 640 480 1 none .tiny 0
        [oversizedDetection]).results.length = 1 := by
  refine ⟨by norm_num, by norm_num, ?_⟩
  have hpass : passesFilter DEFAULT_CCTV_CONFIG 640 480 1 0 0 oversizedDetection = true := by
    rw [passesFilter_eq_true_iff]
    norm_num [effectiveMinScore, DEFAULT_CCTV_CONFIG, oversizedDetection]
  simp [processDetections, hpass]

/-- C1 (amended): the geometric/score filter applies no maximum-size
condition — a detection passes iff its score, minimum sizes, minimum
frame percentage, aspect ratio and containment conditions hold, none of
which bounds the box area from above; in particular the 40%-of-frame box
above passes under the default CCTV configuration and produces one
result. -/
theorem filter_has_no_max_size_condition :
    (∀ (c : CCTVDetectionConfig) (W H s ox oy : ℚ) (d : RawDetection),
      passesFilter c W H s ox oy d = true ↔
        (effectiveMinScore c ≤ d.score
        ∧ c.minFaceSizePx ≤ d.box.width / s
        ∧ c.minFaceSizePx ≤ d.box.height / s
        ∧ c.minFaceSizePercent ≤ d.box.width / s * (d.box.height / s) / (W * H) * 100
        ∧ c.aspectRatioMin ≤ d.box.width / s / (d.box.height / s)
        ∧ d.box.width / s / (d.box.height / s) ≤ c.aspectRatioMax
        ∧ 0 ≤ d.box.x / s + ox
        ∧ 0 ≤ d.box.y / s + oy
        ∧ d.box.x / s + ox + d.box.width / s ≤ W
        ∧ d.box.y / s + oy + d.box.height / s ≤ H))
    ∧ (processDetections DEFAULT_CCTV_CONFIG 640 480 1 none .tiny 0
        [oversizedDetection]).results.length = 1 := by
  refine ⟨passesFilter_eq_true_iff, ?_⟩
  have hpass : passesFilter DEFAULT_CCTV_CONFIG 640 480 1 0 0 oversizedDetection = true := by
    rw [passesFilter_eq_true_iff]
    norm_num [effectiveMinScore, DEFAULT_CCTV_CONFIG, oversizedDetection]
  simp [processDetections, hpass]

/-- C10: the filter is a conjunction of independent monotone conditions —
any detection passing under a threshold set also passes under one that is
componentwise no more restrictive (lower effective minimum score, lower
minimum pixel size, lower minimum size percent, wider aspect-ratio
bounds). -/
theorem passesFilter_monotone (c c' : CCTVDetectionConfig) (W H s ox oy : ℚ)
    (d : RawDetection)
    (hScore : effectiveMinScore c' ≤ effectiveMinScore c)
    (hPx : c'.minFaceSizePx ≤ c.minFaceSizePx)
    (hPct : c'.minFaceSizePercent ≤ c.minFaceSizePercent)
    (hAMin : c'.aspectRatioMin ≤ c.aspectRatioMin)
    (hAMax : c.aspectRatioMax ≤ c'.aspectRatioMax)
    (hPass : passesFilter c W H s ox oy d = true) :
    passesFilter c' W H s ox oy d = true := by
  rw [passesFilter_eq_true_iff] at hPass ⊢
  obtain ⟨p1, p2, p3, p4, p5, p6, p7, p8, p9, p10⟩ := hPass
  exact ⟨le_trans hScore p1, le_trans hPx p2, le_trans hPx p3, le_trans hPct p4,
    le_trans hAMin p5, le_trans p6 hAMax, p7, p8, p9, p10⟩

/-- A concrete raw detection passing the webcam filter: 100×100 box at
(200, 100), score 0.9. -/
def webcamDetection : RawDetection :=
  { box := { x := 200, y := 100, width := 100, height := 100 }
    score := 9/10
    age := 25
    gender := .male
    genderProbability := 4/5 }

/-- C10 witness: the default CCTV thresholds are componentwise no more
restrictive than the default webcam thresholds, and a detection passing
the webcam filter on a 640×480 frame therefore passes the CCTV filter. -/
theorem passesFilter_monotone_witness :
    passesFilter DEFAULT_CCTV_CONFIG 640 480 1 0 0 webcamDetection = true :=
  passesFilter_monotone DEFAULT_WEBCAM_CONFIG DEFAULT_CCTV_CONFIG 640 480 1 0 0
    webcamDetection (by norm_num [effectiveMinScore, DEFAULT_CCTV_CONFIG, DEFAULT_WEBCAM_CONFIG])
    (by norm_num [DEFAULT_CCTV_CONFIG, DEFAULT_WEBCAM_CONFIG])
    (by norm_num [DEFAULT_CCTV_CONFIG, DEFAULT_WEBCAM_CONFIG])
    (by norm_num [DEFAULT_CCTV_CONFIG, DEFAULT_WEBCAM_CONFIG])
    (by norm_num [DEFAULT_CCTV_CONFIG, DEFAULT_WEBCAM_CONFIG])
    (by
      rw [passesFilter_eq_true_iff]
      norm_num [effectiveMinScore, DEFAULT_WEBCAM_CONFIG, webcamDetection])

/-- C5: counterexample.  In the transformers-based pipeline
(src/hooks/useFaceDetection.ts), a detection with raw age estimate 10 is
assigned age group `young`, not `kid` — the claimed boundary
"kid iff age < 13" does not hold in every detection result the pipeline
produces, because this code path has no kid bucket at all. -/
theorem age_ten_maps_to_young :
    (hfClassify { x := 100, y := 100, width := 200, height := 200 } 10 (1/4)).age = 10
    ∧ (hfClassify { x := 100, y := 100, width := 200, height := 200 } 10 (1/4)).ageGroup
        = AgeGroupYA.young
    ∧ (10 : ℤ) < 13 := by
  refine ⟨?_, ?_, by norm_num⟩ <;>
    norm_num [hfClassify, hfAgeGroup, jsRound]

/-- C5 (amended): the CCTV post-processor's age bucketing is total and
exclusive with kid iff age < 13, young iff 13 ≤ age < 35, adult iff
age ≥ 35 (so 13 maps to young and 35 to adult); the transformers-based
pipeline, however, buckets two ways only — young iff age < 35 (including
every child) and adult otherwise. -/
theorem age_bucketing_characterization :
    ∀ age : ℤ,
      ((classifyAgeGroup age = .kid ↔ age < 13)
      ∧ (classifyAgeGroup age = .young ↔ 13 ≤ age ∧ age < 35)
      ∧ (classifyAgeGroup age = .adult ↔ 35 ≤ age))
      ∧ classifyAgeGroup 13 = .young
      ∧ classifyAgeGroup 35 = .adult
      ∧ (hfAgeGroup age = .young ↔ age < 35)
      ∧ (hfAgeGroup age = .adult ↔ 35 ≤ age) := by
  intro age
  refine ⟨⟨?_, ?_, ?_⟩, ?_, ?_, ?_, ?_⟩ <;>
    simp only [classifyAgeGroup, hfAgeGroup] <;>
    split_ifs <;>
    simp_all <;>
    omega

/-- C6: the spec-modelled gender-bias correction is bounded — for every
raw female probability in [0, 1] and boost factor in [0, 0.30] the
corrected probability lies in [raw, 1]; the final gender is female
exactly when the corrected probability reaches 0.5 and the reported
confidence is the larger of the corrected probability and its
complement. -/
theorem bias_boost_bound (p b : ℚ) (hp0 : 0 ≤ p) (hp1 : p ≤ 1)
    (hb0 : 0 ≤ b) (hb1 : b ≤ 3/10) :
    (p ≤ correctedFemaleProb b p ∧ correctedFemaleProb b p ≤ 1)
    ∧ (boostedGender b p = .female ↔ 1/2 ≤ correctedFemaleProb b p)
    ∧ boostedConfidence b p
        = max (correctedFemaleProb b p) (1 - correctedFemaleProb b p) := by
  have h1 : p ≤ p + b * (1 - p) := by nlinarith
  refine ⟨⟨le_min hp1 h1, min_le_left _ _⟩, ?_, rfl⟩
  unfold boostedGender
  split_ifs with h
  · simpa using h
  · simpa using h

/-- C6 witness: the bound instantiated at raw probability 0.5 and boost
factor 0.2. -/
theorem bias_boost_bound_witness :
    ((1/2 : ℚ) ≤ correctedFemaleProb (1/5) (1/2) ∧ correctedFemaleProb (1/5) (1/2) ≤ 1)
    ∧ (boostedGender (1/5) (1/2) = .female ↔ 1/2 ≤ correctedFemaleProb (1/5) (1/2))
    ∧ boostedConfidence (1/5) (1/2)
        = max (correctedFemaleProb (1/5) (1/2)) (1 - correctedFemaleProb (1/5) (1/2)) :=
  bias_boost_bound (1/2) (1/5) (by norm_num) (by norm_num) (by norm_num) (by norm_num)

/-- C7: in the three-pass orchestrator of src/unnamed/part_007, the
pass-3 fallback is reached exactly when passes 1 and 2 both yielded zero
detections, in which case the final result is the pass-3 invocation of
the fast detector; pass 3 uses an input size different from both earlier
passes and a score threshold below pass 1's that stays at or above the
absolute minimum 0.05 (which lies in the 0.05-0.25 range). -/
theorem pass3_fallback_characterization :
    ∀ detect : TinyParams → List RawDetection,
      (pass3Reached detect = true ↔ detect pass1Params = [] ∧ detect pass2Params = [])
      ∧ (pass3Reached detect = true → multiPassDetect detect = detect pass3Params)
      ∧ pass3Params.inputSize ≠ pass1Params.inputSize
      ∧ pass3Params.inputSize ≠ pass2Params.inputSize
      ∧ pass3Params.scoreThreshold < pass1Params.scoreThreshold
      ∧ 1/20 ≤ pass3Params.scoreThreshold ∧ pass3Params.scoreThreshold ≤ 1/4 := by
  intro detect
  have hchar : pass3Reached detect = true
      ↔ detect pass1Params = [] ∧ detect pass2Params = [] := by
    simp only [pass3Reached, afterPass2, decide_eq_true_eq]
    by_cases hd1 : (detect pass1Params).length < 2
    · by_cases hm : (detect pass2Params).length > (detect pass1Params).length
      · rw [if_pos hd1, if_pos hm]
        constructor
        · intro h
          omega
        · rintro ⟨-, h2⟩
          rw [h2] at hm
          simp at hm
      · rw [if_pos hd1, if_neg hm]
        constructor
        · intro h
          refine ⟨List.length_eq_zero.mp h, List.length_eq_zero.mp ?_⟩
          omega
        · rintro ⟨h1, -⟩
          rw [h1]
          rfl
    · rw [if_neg hd1]
      constructor
      · intro h
        omega
      · rintro ⟨h1, -⟩
        rw [h1] at hd1
        simp at hd1
  have himp : pass3Reached detect = true → multiPassDetect detect = detect pass3Params := by
    intro h
    have h0 : (afterPass2 detect).length = 0 := by
      simpa [pass3Reached] using h
    simp [multiPassDetect, h0]
  exact ⟨hchar, himp, by decide, by decide,
    by norm_num [pass1Params, pass3Params],
    by norm_num [pass3Params], by norm_num [pass3Params]⟩

/-- A detector stub that finds nothing on any pass. -/
def detectNone : TinyParams → List RawDetection := fun _ => []

/-- C7 witness: when every pass finds nothing, pass 3 is reached and the
orchestrator's final result is the pass-3 invocation. -/
theorem pass3_fallback_witness :
    multiPassDetect detectNone = detectNone pass3Params :=
  (pass3_fallback_characterization detectNone).2.1
    (by simp [pass3Reached, afterPass2, detectNone])

/-- A face region as found by the skin-tone cluster stage. -/
def sampleRegion : FaceBox := { x := 100, y := 100, width := 200, height := 200 }

/-- C4: evaluation at the failing input.  With the age/gender model NOT
loaded and one skin-tone face region found, `detectFaces` of
src/hooks/useFaceDetection.ts returns a fabricated demographic estimate
(male, age 25, young, confidence 0.5) instead of no detection results —
contradicting its own load-failure message "AI models unavailable.
Detection disabled." and its own comment "Return regions without
age/gender". -/
theorem modelless_detection_fabricates :
    detectFacesHF false [sampleRegion] (fun b => hfClassify b 30 (3/4))
      = [{ gender := .male, age := 25, ageGroup := .young, confidence := 1/2,
           boundingBox := sampleRegion }]
    ∧ detectFacesHF false [sampleRegion] (fun b => hfClassify b 30 (3/4)) ≠ [] := by
  constructor
  · rfl
  · simp [detectFacesHF]

/-- The same viewer as detected in one cycle: male, age 30, young. -/
def repeatedViewer : AdDetectionResult :=
  { gender := .male, age := 30, ageGroup := .young, confidence := 9/10 }

/-- C3: counterexample.  One person detected in three successive cycles
of the capture window (the same detection each cycle) contributes 3 to
the male count computed by `handleAdEnded` — the demographic counts are
per-frame detection tallies, not per-person confirmed-track counts. -/
theorem same_person_counted_per_frame :
    (updateDemographics { male := 0, female := 0, young := 0, adult := 0 }
        (adDetections [[repeatedViewer], [repeatedViewer], [repeatedViewer]])).male = 3
    ∧ (3 : ℕ) ≠ 1 := by
  exact ⟨rfl, by decide⟩

theorem updateDemographics_cons (start : DemographicCounts) (d : AdDetectionResult)
    (rest : List AdDetectionResult) :
    updateDemographics start (d :: rest) = updateDemographics (countDetection start d) rest :=
  rfl

theorem countDetection_male (start : DemographicCounts) (d : AdDetectionResult) :
    (countDetection start d).male = start.male + if d.gender = Gender.male then 1 else 0 := by
  cases hg : d.gender <;> simp [countDetection, hg] <;> split_ifs <;> rfl

theorem countDetection_female (start : DemographicCounts) (d : AdDetectionResult) :
    (countDetection start d).female
      = start.female + if d.gender = Gender.female then 1 else 0 := by
  cases hg : d.gender <;> simp [countDetection, hg] <;> split_ifs <;> rfl

theorem countDetection_young (start : DemographicCounts) (d : AdDetectionResult) :
    (countDetection start d).young
      = start.young + if d.ageGroup = AgeGroupYA.young then 1 else 0 := by
  cases hg : d.gender <;> cases ha : d.ageGroup <;> simp [countDetection, hg, ha]

theorem countDetection_adult (start : DemographicCounts) (d : AdDetectionResult) :
    (countDetection start d).adult
      = start.adult + if d.ageGroup = AgeGroupYA.adult then 1 else 0 := by
  cases hg : d.gender <;> cases ha : d.ageGroup <;> simp [countDetection, hg, ha]

theorem updateDemographics_male (dets : List AdDetectionResult) (start : DemographicCounts) :
    (updateDemographics start dets).male
      = start.male + dets.countP (fun d => d.gender == Gender.male) := by
  induction dets generalizing start with
  | nil => simp [updateDemographics]
  | cons d rest ih =>
    rw [updateDemographics_cons, ih, List.countP_cons, countDetection_male]
    by_cases hg : d.gender = Gender.male <;> simp [hg] <;> omega

theorem updateDemographics_female (dets : List AdDetectionResult) (start : DemographicCounts) :
    (updateDemographics start dets).female
      = start.female + dets.countP (fun d => d.gender == Gender.female) := by
  induction dets generalizing start with
  | nil => simp [updateDemographics]
  | cons d rest ih =>
    rw [updateDemographics_cons, ih, List.countP_cons, countDetection_female]
    by_cases hg : d.gender = Gender.female <;> simp [hg] <;> omega

theorem updateDemographics_young (dets : List AdDetectionResult) (start : DemographicCounts) :
    (updateDemographics start dets).young
      = start.young + dets.countP (fun d => d.ageGroup == AgeGroupYA.young) := by
  induction dets generalizing start with
  | nil => simp [updateDemographics]
  | cons d rest ih =>
    rw [updateDemographics_cons, ih, List.countP_cons, countDetection_young]
    by_cases hg : d.ageGroup = AgeGroupYA.young <;> simp [hg] <;> omega

theorem updateDemographics_adult (dets : List AdDetectionResult) (start : DemographicCounts) :
    (updateDemographics start dets).adult
      = start.adult + dets.countP (fun d => d.ageGroup == AgeGroupYA.adult) := by
  induction dets generalizing start with
  | nil => simp [updateDemographics]
  | cons d rest ih =>
    rw [updateDemographics_cons, ih, List.countP_cons, countDetection_adult]
    by_cases hg : d.ageGroup = AgeGroupYA.adult <;> simp [hg] <;> omega

/-- C3 (amended): the demographic counts are computed from raw per-frame
detection results, never from confirmed tracks — `handleAdEnded` adds one
to the matching gender and age-group count for EVERY detection
accumulated over the capture window (a person detected in k cycles
contributes k), and the part_008 loop's snapshot tallies the latest
cycle's raw results one per detection. -/
theorem demographics_tally_raw_detections :
    (∀ (start : DemographicCounts) (cycles : List (List AdDetectionResult)),
      (updateDemographics start (adDetections cycles)).male
          = start.male + (adDetections cycles).countP (fun d => d.gender == Gender.male)
      ∧ (updateDemographics start (adDetections cycles)).female
          = start.female + (adDetections cycles).countP (fun d => d.gender == Gender.female)
      ∧ (updateDemographics start (adDetections cycles)).young
          = start.young + (adDetections cycles).countP (fun d => d.ageGroup == AgeGroupYA.young)
      ∧ (updateDemographics start (adDetections cycles)).adult
          = start.adult + (adDetections cycles).countP (fun d => d.ageGroup == AgeGroupYA.adult))
    ∧ ∀ results : List PipelineResult,
        (snapshotOfResults results).male
            = (results.filter fun d => d.gender = Gender.male).length
        ∧ (snapshotOfResults results).kid
            = (results.filter fun d => d.ageGroup = AgeGroup.kid).length := by
  refine ⟨fun start cycles => ?_, fun results => ⟨rfl, rfl⟩⟩
  exact ⟨updateDemographics_male _ _, updateDemographics_female _ _,
    updateDemographics_young _ _, updateDemographics_adult _ _⟩

theorem survivesUnmatched_eq_some (holdFrames k : ℕ) (t t' : TrackedFace)
    (h : survivesUnmatched holdFrames k t = some t') :
    t'.missedFrames = t.missedFrames + k ∧ (1 ≤ k → t'.missedFrames ≤ holdFrames) := by
  induction k generalizing t' with
  | zero =>
    simp only [survivesUnmatched, Option.some.injEq] at h
    subst h
    exact ⟨rfl, by omega⟩
  | succ k ih =>
    simp only [survivesUnmatched, Option.bind_eq_some] at h
    obtain ⟨u, hu, hstep⟩ := h
    have hmf := (ih u hu).1
    unfold stepUnmatchedTrack at hstep
    split_ifs at hstep with hhold
    obtain rfl := Option.some.injEq .. |>.mp hstep
    refine ⟨by simp [hmf]; omega, fun _ => by simp; omega⟩

/-- C2: tracker hold invariant (modelled from the spec, §4.6) — after any
tracker cycle, regardless of the matching outcome, no live track has
`missedFrames` exceeding `holdFrames`; and a track that stays unmatched
for more than `holdFrames` consecutive cycles is removed. -/
theorem tracker_hold_invariant :
    ∀ (holdFrames now : ℕ) (assign : TrackedFace → Option PipelineResult)
      (unmatchedDets : List (String × PipelineResult)) (tracks : List TrackedFace),
      (∀ t' ∈ trackerCycle holdFrames now assign unmatchedDets tracks,
        t'.missedFrames ≤ holdFrames)
      ∧ ∀ (t : TrackedFace) (k : ℕ), holdFrames < k →
          survivesUnmatched holdFrames k t = none := by
  intro holdFrames now assign unmatchedDets tracks
  constructor
  · intro t' ht'
    rcases List.mem_append.mp ht' with h | h
    · obtain ⟨t, -, hf⟩ := List.mem_filterMap.mp h
      cases hassign : assign t with
      | some d =>
        rw [hassign] at hf
        obtain rfl := Option.some.injEq .. |>.mp hf
        simp [matchedUpdate]
      | none =>
        rw [hassign] at hf
        unfold stepUnmatchedTrack at hf
        split_ifs at hf with hhold
        obtain rfl := Option.some.injEq .. |>.mp hf
        simp
        omega
    · obtain ⟨p, -, rfl⟩ := List.mem_map.mp h
      simp [newTrack]
  · intro t k hk
    cases hsv : survivesUnmatched holdFrames k t with
    | none => rfl
    | some t' =>
      exfalso
      obtain ⟨h1, h2⟩ := survivesUnmatched_eq_some holdFrames k t t' hsv
      have h3 := h2 (by omega)
      omega

/-- A concrete confirmed track. -/
def sampleTrack : TrackedFace :=
  { id := "t1"
    boundingBox := { x := 0, y := 0, width := 50, height := 50 }
    velocity := { vx := 0, vy := 0 }
    confidence := 9/10
    faceScore := 8/10
    gender := .female
    ageGroup := .adult
    consecutiveHits := 3
    missedFrames := 0
    firstSeenAt := 0
    lastSeenAt := 0
    detectorUsed := .tiny }

/-- C2 witness: with the default CCTV `holdFrames` of 4, a track
unmatched for 5 consecutive cycles is removed. -/
theorem tracker_hold_invariant_witness :
    survivesUnmatched 4 5 sampleTrack = none :=
  (tracker_hold_invariant 4 0 (fun _ => none) [] []).2 sampleTrack 5 (by norm_num)

/-- C8: the detection cycle is bounded by the hard 10-second
`DETECTION_TIMEOUT`; a cycle whose inference loses the race against the
timer returns an empty result with the in-flight guard false afterward,
and a subsequent cycle that starts with the guard clear runs the
orchestrator normally. -/
theorem detection_timeout_behavior :
    DETECTION_TIMEOUT = 10000
    ∧ ∀ (env : DetectorEnv) (ssdLoaded : Bool) (c : CCTVDetectionConfig) (isCCTV : Bool)
        (W H : ℚ) (now : ℕ),
        ((detectFacesCycle false true true true env ssdLoaded c isCCTV W H now).results = []
        ∧ (detectFacesCycle false true true true env ssdLoaded c isCCTV W H now).inFlightAfter
            = false)
        ∧ detectFacesCycle false true true false env ssdLoaded c isCCTV W H now
            = { results := (orchestrate env ssdLoaded c isCCTV W H now).outcome.results
                detectorInvocations :=
                  (orchestrate env ssdLoaded c isCCTV W H now).detectorInvocations
                inFlightAfter := false } :=
  ⟨rfl, fun _ _ _ _ _ _ _ => ⟨⟨rfl, rfl⟩, rfl⟩⟩

/-- C9: while a cycle is in flight, a second `detectFaces` call is a
no-op — it returns an empty result, performs zero detector invocations,
and leaves the guard set, so at most one cycle runs per video source. -/
theorem inflight_guard_noop :
    ∀ (ready modelLoaded timedOut : Bool) (env : DetectorEnv) (ssdLoaded : Bool)
      (c : CCTVDetectionConfig) (isCCTV : Bool) (W H : ℚ) (now : ℕ),
      (detectFacesCycle true ready modelLoaded timedOut env ssdLoaded c isCCTV
          W H now).results = []
      ∧ (detectFacesCycle true ready modelLoaded timedOut env ssdLoaded c isCCTV
          W H now).detectorInvocations = 0
      ∧ (detectFacesCycle true ready modelLoaded timedOut env ssdLoaded c isCCTV
          W H now).inFlightAfter = true :=
  fun _ _ _ _ _ _ _ _ _ _ => ⟨rfl, rfl, rfl⟩

end SmartAds
